import Mathlib

/-!
Shallow embedding of the milestone-recording fragment of
`notebooks/training.py` (the training loop, lines 230-308): the Metric
Tracker (`prev_max`), the Trajectory Locator (`i_start` / `i_end`) and the
Milestone Recorder (trajectory slice, warning, directory creation, render
call), together with the loop's break condition.
-/

namespace RLSnakes

/-- One transition record of the experience log (`rb["next", ...]` columns):
the step counter, the `done` flag, the `truncated` flag and the score field
`snake_length`. -/
structure Transition where
  stepCount : Nat
  done : Bool
  truncated : Bool
  snakeLength : Nat
deriving DecidableEq, Inhabited

/-- The `done` column of the log: `rb["next", "done"]`. -/
def doneFlags (log : List Transition) : List Bool :=
  log.map (fun t => t.done)

/-- The `truncated` column of the log: `rb["next", "truncated"]`. -/
def truncatedFlags (log : List Transition) : List Bool :=
  log.map (fun t => t.truncated)

/-- The `snake_length` column of the log: `rb["next", "snake_length"]`. -/
def snakeLengths (log : List Transition) : List Nat :=
  log.map (fun t => t.snakeLength)

/-- `rb[:]["next", "snake_length"].max()`.  (On an empty tensor torch would
raise; the buffer is non-empty from the first `rb.extend` on, and we return
`0` for the empty list.) -/
def maxSnakeLength (log : List Transition) : Nat :=
  (snakeLengths log).foldr max 0

/-- `rb["next", "snake_length"].argmax()`: torch returns the index of the
first maximal value. -/
def argmaxSnakeLength (log : List Transition) : Nat :=
  (snakeLengths log).findIdx (fun x => x == maxSnakeLength log)

/-- `t.argwhere()` on a boolean tensor: the (ascending) list of indices of
the `true` entries, the running index starting at `i`. -/
def argwhereAux : Nat → List Bool → List Nat
  | _, [] => []
  | i, b :: bs => if b then i :: argwhereAux (i + 1) bs else argwhereAux (i + 1) bs

/-- `t.argwhere()` with indices counted from `0`. -/
def argwhere (bs : List Bool) : List Nat :=
  argwhereAux 0 bs

/-- The index of the last `true` entry of a boolean list (`none` when every
entry is `false`): the value that `argwhere()[-1][0]` denotes when it does
not raise. -/
def lastTrueIdx : List Bool → Option Nat
  | [] => none
  | b :: bs =>
    match lastTrueIdx bs with
    | some j => some (j + 1)
    | none => if b then some 0 else none

/-- The milestone condition of line 241:
`max_snake_length > prev_max and max_snake_length > 5`. -/
def milestoneCond (prevMax m : Nat) : Bool :=
  decide (prevMax < m) && decide (5 < m)

/-- Line 243, `i_start = rb["next", "done"][:i_max].argwhere()[-1][0] + 1`:
the slice `[:i_max]` is `take iMax`, `argwhere()[-1][0]` is the last listed
index, and indexing `[-1]` into an empty `argwhere` result raises an
`IndexError`. -/
def iStart (log : List Transition) (iMax : Nat) : Except String Nat :=
  match (argwhere ((doneFlags log).take iMax)).getLast? with
  | none => Except.error ("IndexError")
  | some j => Except.ok (j + 1)

/-- Line 244, `i_end = i_max + rb["next", "done"][i_max:].argwhere()`: a
tensor of candidate end indices (the slice `[i_max:]` is `drop iMax`, and
adding the scalar `i_max` shifts every listed index). -/
def iEndCandidates (log : List Transition) (iMax : Nat) : List Nat :=
  (argwhere ((doneFlags log).drop iMax)).map (fun j => iMax + j)

/-- Line 245, the guard `if i_end.numel == 0:`.  `numel` is a method and the
call parentheses are missing, so Python compares a bound-method object with
`0`; that comparison is always `False`, and the guard never fires. -/
def iEndNumelGuard (_candidates : List Nat) : Bool :=
  false

/-- File-system and console effects of one milestone-recording attempt, in
program order: `print`, `video_dir.mkdir(parents=True, exist_ok=True)`, and
`render_trajectory(path, ..., tensordict=trajectory)`. -/
inductive Event where
  | print (msg : String)
  | mkdir (dir : String)
  | render (path : String) (trajectory : List Transition)
deriving DecidableEq

/-- Lines 253-256, the truncation warning
`f"Warning: the trajectory which yielded a max score of {max_snake_length}
was truncated at {args.max_episode_steps} steps."`. -/
def warningMsg (m maxEpisodeSteps : Nat) : String :=
  "Warning: the trajectory which yielded a max score of " ++ toString m
    ++ " was truncated at " ++ toString maxEpisodeSteps ++ " steps."

/-- Lines 258-261, the `"New max of {max_snake_length}; ..."` print.  The
rest of the source message (the formatted buffer occupancy and the float
epsilon of the exploration module) is outside this fragment's data model and
is elided. -/
def newMaxMsg (m : Nat) : String :=
  "New max of " ++ toString m

/-- `path = Path("./output")` (line 206). -/
def outputPath : String :=
  "./output"

/-- The `/` operator of `pathlib.Path`, joining with a path separator. -/
def pathJoin (a b : String) : String :=
  a ++ "/" ++ b

/-- Line 266, `video_dir = path / args.exp_name / "videos"`. -/
def videoDir (expName : String) : String :=
  pathJoin (pathJoin outputPath expName) ("videos")

/-- Line 271, `str(video_dir / f"snake_length_{max_snake_length}.cast")`
(formatting a 0-dim tensor inserts its scalar item). -/
def castPath (expName : String) (m : Nat) : String :=
  pathJoin (videoDir expName) ("snake_length_" ++ toString m ++ ".cast")

/-- Python slicing `log[a : b]` on in-range bounds: the records at indices
`a, ..., b - 1`.  Line 264 extracts `rb["next"][i_start : i_end + 1]`. -/
def sliceLog (log : List Transition) (a b : Nat) : List Transition :=
  (log.take b).drop a

/-- `Path.mkdir(parents=True, exist_ok=True)` on a model file system (the
set of existing directories): creates the directory when absent, succeeds
silently when it already exists (line 268). -/
def mkdirP (dirs : List String) (d : String) : List String :=
  if d ∈ dirs then dirs else d :: dirs

/-- The configuration this fragment reads: `args.exp_name` and
`args.max_episode_steps`. -/
structure Config where
  expName : String
  maxEpisodeSteps : Nat

/-- The effect sequence of a successful recording, lines 258-274, apart from
the truncation warning: the `"New max ..."` print, the directory creation,
and the render call on the extracted trajectory
`rb["next"][i_start : i_end + 1]`. -/
def recordEvents (cfg : Config) (log : List Transition) (s k : Nat) : List Event :=
  [Event.print (newMaxMsg (maxSnakeLength log)),
   Event.mkdir (videoDir cfg.expName),
   Event.render (castPath cfg.expName (maxSnakeLength log)) (sliceLog log s (k + 1))]

/-- One pass of the milestone block, lines 241-274, on the current buffer
snapshot `log` and tracker state `prevMax`.  Returns the new `prev_max`
together with the effects emitted in program order, or the message of the
uncaught Python exception when the snapshot makes an indexing step raise.
The `continue` of line 248 yields the unchanged state with no effects (it is
dead code, see `iEndNumelGuard`). -/
def stepIteration (cfg : Config) (log : List Transition) (prevMax : Nat) :
    Except String (Nat × List Event) :=
  let m := maxSnakeLength log
  if milestoneCond prevMax m then
    let iMax := argmaxSnakeLength log
    match iStart log iMax with
    | Except.error msg => Except.error msg
    | Except.ok s =>
      let cands := iEndCandidates log iMax
      if iEndNumelGuard cands then
        Except.ok (prevMax, [])
      else
        match cands.head? with
        | none => Except.error ("IndexError")
        | some k =>
          let warnEvs :=
            if (truncatedFlags log).getD k false then
              [Event.print (warningMsg m cfg.maxEpisodeSteps)]
            else []
          Except.ok (m, warnEvs ++ recordEvents cfg log s k)
  else
    Except.ok (prevMax, [])

/-- The `prev_max` state after one loop iteration: the updated value on a
normal pass, the old value when the iteration raised (the process dies with
`prev_max` never having been decreased). -/
def prevMaxAfter (prevMax : Nat) (r : Except String (Nat × List Event)) : Nat :=
  match r with
  | Except.ok (p, _) => p
  | Except.error _ => prevMax

/-- Whether an iteration attempted a recording: it either crashed inside the
milestone block or emitted effects; an iteration that skipped the block
returns `Except.ok` with no effects. -/
def recordingAttempted (r : Except String (Nat × List Event)) : Bool :=
  match r with
  | Except.error _ => true
  | Except.ok (_, evs) => !evs.isEmpty

/-- The Metric Tracker step (lines 241 and 262): `prev_max` becomes the
observed max exactly when the milestone condition fires. -/
def trackStep (prevMax m : Nat) : Nat :=
  if milestoneCond prevMax m then m else prevMax

/-- The milestone-firing pattern of a sequence of observed-max values,
threaded through the Metric Tracker state. -/
def firesList : Nat → List Nat → List Bool
  | _, [] => []
  | prevMax, m :: ms => milestoneCond prevMax m :: firesList (trackStep prevMax m) ms

/-- Lines 301-302, the loop exit: `if max_snake_length == 100: break`. -/
def breakCond (m : Nat) : Bool :=
  m == 100

/-- The number of render calls in an effect sequence. -/
def renderCount (evs : List Event) : Nat :=
  (evs.filter (fun ev =>
    match ev with
    | Event.render _ _ => true
    | _ => false)).length

theorem getLast?_cons_getD {α : Type} (a : α) (l : List α) :
    (a :: l).getLast? = some (l.getLast?.getD a) := by
  induction l generalizing a with
  | nil => rfl
  | cons b l ih => simp [List.getLast?_cons_cons, ih b]

theorem argwhereAux_getLast? (bs : List Bool) :
    ∀ i, (argwhereAux i bs).getLast? = (lastTrueIdx bs).map (fun j => i + j) := by
  induction bs with
  | nil => intro i; rfl
  | cons b bs ih =>
    intro i
    cases b <;> cases h : lastTrueIdx bs <;>
      simp [argwhereAux, lastTrueIdx, h, ih (i + 1), getLast?_cons_getD] <;> omega

theorem lastTrueIdx_eq_none (bs : List Bool)
    (h : ∀ k : Nat, bs[k]? ≠ some true) : lastTrueIdx bs = none := by
  induction bs with
  | nil => rfl
  | cons b bs ih =>
    have hb : b = false := by
      have h0 := h 0
      simp only [List.getElem?_cons_zero] at h0
      cases b
      · rfl
      · exact absurd rfl h0
    have ihn := ih (fun k => by simpa using h (k + 1))
    simp [lastTrueIdx, ihn, hb]

theorem lastTrueIdx_eq_some (bs : List Bool) (j : Nat)
    (hj : bs[j]? = some true)
    (hmax : ∀ k : Nat, j < k → bs[k]? ≠ some true) : lastTrueIdx bs = some j := by
  induction bs generalizing j with
  | nil => simp at hj
  | cons b bs ih =>
    cases j with
    | zero =>
      have hb : b = true := by simpa using hj
      have hn : lastTrueIdx bs = none :=
        lastTrueIdx_eq_none bs (fun k => by simpa using hmax (k + 1) (Nat.succ_pos k))
      simp [lastTrueIdx, hn, hb]
    | succ j =>
      have hj' : bs[j]? = some true := by simpa using hj
      have hmax' : ∀ k : Nat, j < k → bs[k]? ≠ some true := fun k hk => by
        simpa using hmax (k + 1) (Nat.succ_lt_succ hk)
      simp [lastTrueIdx, ih j hj' hmax']

/-- The backward scan of line 243: on the `done` flags restricted to
`[:i_max]`, `argwhere()[-1][0]` is exactly the nearest `done` index before
`i_max`. -/
theorem argwhere_take_getLast?_eq (log : List Transition) (iMax j : Nat)
    (hji : j < iMax)
    (hdone : (doneFlags log)[j]? = some true)
    (hnear : ∀ k : Nat, j < k → k < iMax → (doneFlags log)[k]? ≠ some true) :
    (argwhere ((doneFlags log).take iMax)).getLast? = some j := by
  have h1 : ((doneFlags log).take iMax)[j]? = some true := by
    rw [List.getElem?_take, if_pos hji, hdone]
  have h2 : ∀ k : Nat, j < k → ((doneFlags log).take iMax)[k]? ≠ some true := by
    intro k hk
    rw [List.getElem?_take]
    by_cases hkm : k < iMax
    · rw [if_pos hkm]; exact hnear k hk hkm
    · rw [if_neg hkm]; exact fun h => Option.noConfusion h
  have hlast := lastTrueIdx_eq_some _ j h1 h2
  rw [argwhere, argwhereAux_getLast? _ 0, hlast]
  simp

/-- `Path.mkdir(parents=True, exist_ok=True)` is idempotent on the model
file system. -/
theorem mkdirP_idem (dirs : List String) (d : String) :
    mkdirP (mkdirP dirs d) d = mkdirP dirs d := by
  unfold mkdirP
  by_cases h : d ∈ dirs
  · simp [h]
  · simp [h]

theorem str_append_lit (a b c : String) (h : a ++ b = c) (x : String) :
    a ++ (b ++ x) = c ++ x := by
  rw [← String.append_assoc, h]

/-- The generated artifact path, flattened. -/
theorem castPath_eq (expName : String) (m : Nat) :
    castPath expName m =
      "./output/" ++ expName ++ "/videos/snake_length_" ++ toString m ++ ".cast" := by
  unfold castPath videoDir pathJoin outputPath
  simp only [String.append_assoc]
  rw [str_append_lit ("./output") ("/") ("./output/") rfl,
    str_append_lit ("/") ("videos") ("/videos") rfl,
    str_append_lit ("/videos") ("/") ("/videos/") rfl,
    str_append_lit ("/videos/") ("snake_length_") ("/videos/snake_length_") rfl]

/-- A log whose maximal record (index 1, score 6) has no `done = true` at or
after it: the milestone episode is still running. -/
def logC1 : List Transition :=
  [⟨1, true, false, 1⟩, ⟨2, false, false, 6⟩]

/-- A log with `done = true` at indices 0 and 1 and the milestone at 2. -/
def logC2 : List Transition :=
  [⟨1, true, false, 1⟩, ⟨2, true, false, 2⟩, ⟨3, false, false, 6⟩]

/-- A log with no `done = true` before the maximal record at index 2: the
milestone lies in the first episode of the log. -/
def logC3 : List Transition :=
  [⟨1, false, false, 1⟩, ⟨2, false, false, 2⟩, ⟨3, false, false, 6⟩]

/-- A log whose max score 3 is below the interest threshold. -/
def logC4 : List Transition :=
  [⟨1, false, false, 3⟩]

/-- A complete milestone episode whose terminating record is truncated. -/
def logC6 : List Transition :=
  [⟨1, true, false, 1⟩, ⟨2, false, false, 6⟩, ⟨3, true, true, 6⟩]

/-- Ten records, `done = true` exactly at indices 2 and 7, argmax of
`snake_length` at index 5. -/
def logC7a : List Transition :=
  [⟨1, false, false, 1⟩, ⟨2, false, false, 2⟩, ⟨3, true, false, 3⟩,
   ⟨4, false, false, 1⟩, ⟨5, false, false, 2⟩, ⟨6, false, false, 6⟩,
   ⟨7, false, false, 4⟩, ⟨8, true, false, 5⟩, ⟨9, false, false, 1⟩,
   ⟨10, false, false, 2⟩]

/-- The same shape but with no terminating `done` anywhere after index 5. -/
def logC7b : List Transition :=
  [⟨1, false, false, 1⟩, ⟨2, false, false, 2⟩, ⟨3, true, false, 3⟩,
   ⟨4, false, false, 1⟩, ⟨5, false, false, 2⟩, ⟨6, false, false, 6⟩,
   ⟨7, false, false, 4⟩, ⟨8, false, false, 5⟩, ⟨9, false, false, 1⟩,
   ⟨10, false, false, 2⟩]

/-- A complete milestone episode ending in a natural termination. -/
def logC8 : List Transition :=
  [⟨1, true, false, 1⟩, ⟨2, false, false, 6⟩, ⟨3, true, false, 6⟩]

/-- C1: the spec requires that when no record at or after `i_max` has
`done = true` the locator reports "incomplete", the recording attempt is
skipped without extraction or rendering, and `prev_max` stays unchanged for
a later retry.  The code instead raises: the guard `i_end.numel == 0` never
fires because the call parentheses on `numel` are missing, so `i_end[0, 0]`
raises `IndexError` on the empty index tensor.  Evaluation at such a log. -/
theorem c1_incomplete_episode_crash :
    iEndCandidates logC1 (argmaxSnakeLength logC1) = [] ∧
    iEndNumelGuard (iEndCandidates logC1 (argmaxSnakeLength logC1)) = false ∧
    stepIteration ⟨"exp", 5000⟩ logC1 0 = Except.error ("IndexError") :=
  ⟨rfl, rfl, rfl⟩

/-- C2: when a record with `done = true` exists at an index `j < i_max` and
`j` is the largest such index, the computed span start is `j + 1`, no matter
how many earlier `done` records precede `j`. -/
theorem c2_span_start (log : List Transition) (iMax j : Nat)
    (hji : j < iMax)
    (hdone : (doneFlags log)[j]? = some true)
    (hnear : ∀ k : Nat, j < k → k < iMax → (doneFlags log)[k]? ≠ some true) :
    iStart log iMax = Except.ok (j + 1) := by
  unfold iStart
  rw [argwhere_take_getLast?_eq log iMax j hji hdone hnear]

theorem c2_span_start_witness :
    iStart logC2 2 = Except.ok 2 :=
  c2_span_start logC2 2 1 (by decide) (by decide)
    (fun k hk1 hk2 => absurd hk1 (by omega))

/-- C3: the spec requires span start `0` when no record before `i_max` has
`done = true` (milestone in the first episode).  The code instead raises:
`argwhere()` over `done[:i_max]` is empty and the `[-1]` indexing raises
`IndexError`.  Evaluation at such a log. -/
theorem c3_first_episode_crash :
    argmaxSnakeLength logC3 = 2 ∧
    iStart logC3 2 = Except.error ("IndexError") ∧
    stepIteration ⟨"exp", 5000⟩ logC3 0 = Except.error ("IndexError") :=
  ⟨rfl, rfl, rfl⟩

/-- C4: a recording is attempted in an iteration exactly when the observed
max strictly exceeds `prev_max` and also exceeds the threshold `5`;
otherwise the iteration leaves `prev_max` unchanged and emits nothing. -/
theorem c4_milestone_iff (cfg : Config) (log : List Transition) (prevMax : Nat) :
    recordingAttempted (stepIteration cfg log prevMax)
      = milestoneCond prevMax (maxSnakeLength log) ∧
    (milestoneCond prevMax (maxSnakeLength log) = false →
      stepIteration cfg log prevMax = Except.ok (prevMax, [])) := by
  constructor
  · cases hc : milestoneCond prevMax (maxSnakeLength log)
    · simp [stepIteration, recordingAttempted, hc]
    · cases hs : iStart log (argmaxSnakeLength log) with
      | error msg => simp [stepIteration, recordingAttempted, hc, hs]
      | ok s =>
        cases hh : (iEndCandidates log (argmaxSnakeLength log)).head? with
        | none => simp [stepIteration, recordingAttempted, hc, hs, hh, iEndNumelGuard]
        | some k =>
          cases ht : (truncatedFlags log).getD k false <;>
            simp [stepIteration, recordingAttempted, hc, hs, hh, ht,
              iEndNumelGuard, recordEvents]
  · intro h
    simp [stepIteration, h]

theorem c4_milestone_iff_witness :
    recordingAttempted (stepIteration ⟨"exp", 5000⟩ logC4 0)
      = milestoneCond 0 (maxSnakeLength logC4) ∧
    stepIteration ⟨"exp", 5000⟩ logC4 0 = Except.ok (0, []) :=
  ⟨(c4_milestone_iff ⟨"exp", 5000⟩ logC4 0).1,
   (c4_milestone_iff ⟨"exp", 5000⟩ logC4 0).2 (by decide)⟩

/-- C5: Metric Tracker idempotence: on the observed-max sequence
`[5, 5, 5, 8, 8, 3]` a milestone fires only at the transition to `8` (the
value `5` does not exceed the threshold `5`), a value that fired never
re-fires, and a value not exceeding `prev_max` never fires. -/
theorem c5_tracker_idempotent :
    firesList 0 [5, 5, 5, 8, 8, 3] = [false, false, false, true, false, false] ∧
    (∀ pm m : Nat, milestoneCond pm m = true → milestoneCond (trackStep pm m) m = false) ∧
    (∀ pm m : Nat, m ≤ pm → milestoneCond pm m = false) := by
  refine ⟨by decide, ?_, ?_⟩
  · intro pm m h
    have hm : trackStep pm m = m := by simp [trackStep, h]
    rw [hm]
    simp [milestoneCond]
  · intro pm m h
    simp [milestoneCond]
    omega

theorem c5_tracker_idempotent_witness :
    firesList 0 [5, 5, 5, 8, 8, 3] = [false, false, false, true, false, false] ∧
    milestoneCond (trackStep 0 8) 8 = false ∧
    milestoneCond 8 3 = false :=
  ⟨c5_tracker_idempotent.1,
   c5_tracker_idempotent.2.1 0 8 (by decide),
   c5_tracker_idempotent.2.2 8 3 (by decide)⟩

/-- C6: a complete span whose end record has `truncated = true` is still
extracted and handed to the renderer exactly as a naturally terminated one,
with a warning carrying the milestone score and the configured step ceiling
emitted in addition. -/
theorem c6_truncated_still_recorded (cfg : Config) (log : List Transition)
    (prevMax s k : Nat)
    (hcond : milestoneCond prevMax (maxSnakeLength log) = true)
    (hstart : iStart log (argmaxSnakeLength log) = Except.ok s)
    (hend : (iEndCandidates log (argmaxSnakeLength log)).head? = some k) :
    stepIteration cfg log prevMax =
      Except.ok (maxSnakeLength log,
        (if (truncatedFlags log).getD k false then
          [Event.print (warningMsg (maxSnakeLength log) cfg.maxEpisodeSteps)]
        else []) ++ recordEvents cfg log s k) ∧
    (∃ a b c, warningMsg (maxSnakeLength log) cfg.maxEpisodeSteps =
      a ++ toString (maxSnakeLength log) ++ b ++ toString cfg.maxEpisodeSteps ++ c) := by
  constructor
  · simp [stepIteration, hcond, hstart, hend, iEndNumelGuard]
  · exact ⟨"Warning: the trajectory which yielded a max score of ",
      " was truncated at ", " steps.", rfl⟩

theorem c6_truncated_still_recorded_witness :
    stepIteration ⟨"exp", 5000⟩ logC6 0 =
      Except.ok (6, Event.print (warningMsg 6 5000) ::
        recordEvents ⟨"exp", 5000⟩ logC6 1 2) ∧
    (∃ a b c, warningMsg 6 5000 = a ++ toString 6 ++ b ++ toString 5000 ++ c) :=
  c6_truncated_still_recorded ⟨"exp", 5000⟩ logC6 0 1 2 (by decide) rfl rfl

/-- C7: on the 10-record log with `done` at indices 2 and 7 and `i_max = 5`
the located span is `[3, 7]` and the extracted trajectory is the records at
indices 3..7, inclusive of the end record.  When no `done` exists anywhere
after index 5 the code does not return `[3, 9]`, but neither does it report
"incomplete" as the spec requires: it raises `IndexError` because the
`i_end.numel == 0` guard never fires. -/
theorem c7_end_to_end :
    argmaxSnakeLength logC7a = 5 ∧
    iStart logC7a 5 = Except.ok 3 ∧
    (iEndCandidates logC7a 5).head? = some 7 ∧
    sliceLog logC7a 3 (7 + 1) =
      [⟨4, false, false, 1⟩, ⟨5, false, false, 2⟩, ⟨6, false, false, 6⟩,
       ⟨7, false, false, 4⟩, ⟨8, true, false, 5⟩] ∧
    stepIteration ⟨"exp", 5000⟩ logC7a 0 =
      Except.ok (6, recordEvents ⟨"exp", 5000⟩ logC7a 3 7) ∧
    argmaxSnakeLength logC7b = 5 ∧
    iEndCandidates logC7b 5 = [] ∧
    stepIteration ⟨"exp", 5000⟩ logC7b 0 = Except.error ("IndexError") :=
  ⟨rfl, rfl, rfl, rfl, rfl, rfl, rfl, rfl⟩

/-- C8: a successful milestone recording emits exactly one render call, at
the path `./output/<exp_name>/videos/snake_length_<score>.cast`, and the
parent directory creation precedes the render and is idempotent. -/
theorem c8_artifact (cfg : Config) (log : List Transition) (prevMax s k : Nat)
    (hcond : milestoneCond prevMax (maxSnakeLength log) = true)
    (hstart : iStart log (argmaxSnakeLength log) = Except.ok s)
    (hend : (iEndCandidates log (argmaxSnakeLength log)).head? = some k) :
    (∃ evs, stepIteration cfg log prevMax = Except.ok (maxSnakeLength log, evs) ∧
      renderCount evs = 1 ∧
      ∃ pre, evs = pre ++
        [Event.mkdir (videoDir cfg.expName),
         Event.render (castPath cfg.expName (maxSnakeLength log))
           (sliceLog log s (k + 1))]) ∧
    castPath cfg.expName (maxSnakeLength log) =
      "./output/" ++ cfg.expName ++ "/videos/snake_length_" ++
        toString (maxSnakeLength log) ++ ".cast" ∧
    (∀ dirs : List String,
      mkdirP (mkdirP dirs (videoDir cfg.expName)) (videoDir cfg.expName) =
        mkdirP dirs (videoDir cfg.expName)) := by
  refine ⟨?_, castPath_eq cfg.expName (maxSnakeLength log),
    fun dirs => mkdirP_idem dirs (videoDir cfg.expName)⟩
  refine ⟨(if (truncatedFlags log).getD k false then
      [Event.print (warningMsg (maxSnakeLength log) cfg.maxEpisodeSteps)] else []) ++
      recordEvents cfg log s k, ?_, ?_, ?_⟩
  · simp [stepIteration, hcond, hstart, hend, iEndNumelGuard]
  · cases ht : (truncatedFlags log).getD k false <;> simp [ht, renderCount, recordEvents]
  · refine ⟨(if (truncatedFlags log).getD k false then
      [Event.print (warningMsg (maxSnakeLength log) cfg.maxEpisodeSteps)] else []) ++
      [Event.print (newMaxMsg (maxSnakeLength log))], ?_⟩
    simp [recordEvents]

theorem c8_artifact_witness :
    (∃ evs, stepIteration ⟨"exp", 5000⟩ logC8 0 = Except.ok (6, evs) ∧
      renderCount evs = 1 ∧
      ∃ pre, evs = pre ++
        [Event.mkdir (videoDir "exp"),
         Event.render (castPath "exp" 6) (sliceLog logC8 1 3)]) ∧
    castPath "exp" 6 =
      "./output/" ++ "exp" ++ "/videos/snake_length_" ++ toString 6 ++ ".cast" ∧
    mkdirP (mkdirP [] (videoDir "exp")) (videoDir "exp") = mkdirP [] (videoDir "exp") :=
  ⟨(c8_artifact ⟨"exp", 5000⟩ logC8 0 1 2 (by decide) rfl rfl).1,
   (c8_artifact ⟨"exp", 5000⟩ logC8 0 1 2 (by decide) rfl rfl).2.1,
   (c8_artifact ⟨"exp", 5000⟩ logC8 0 1 2 (by decide) rfl rfl).2.2 []⟩

/-- C9: `prev_max` is monotonically non-decreasing: every iteration either
leaves it unchanged or assigns a strictly larger value. -/
theorem c9_prev_max_monotone (cfg : Config) (log : List Transition) (prevMax : Nat) :
    prevMaxAfter prevMax (stepIteration cfg log prevMax) = prevMax ∨
    prevMax < prevMaxAfter prevMax (stepIteration cfg log prevMax) := by
  cases hc : milestoneCond prevMax (maxSnakeLength log)
  · left; simp [stepIteration, hc, prevMaxAfter]
  · cases hs : iStart log (argmaxSnakeLength log) with
    | error msg => left; simp [stepIteration, hc, hs, prevMaxAfter]
    | ok s =>
      cases hh : (iEndCandidates log (argmaxSnakeLength log)).head? with
      | none => left; simp [stepIteration, hc, hs, hh, iEndNumelGuard, prevMaxAfter]
      | some k =>
        right
        have hlt : prevMax < maxSnakeLength log := by
          simp [milestoneCond] at hc
          exact hc.1
        simp [stepIteration, hc, hs, hh, iEndNumelGuard, prevMaxAfter]
        exact hlt

/-- C10: the loop break condition fires exactly at a buffer max of `100`;
any other value, larger ones included, lets the loop continue. -/
theorem c10_break_iff :
    (∀ m : Nat, breakCond m = true ↔ m = 100) ∧
    (∀ m : Nat, m ≠ 100 → breakCond m = false) := by
  constructor
  · intro m; simp [breakCond]
  · intro m h; simp [breakCond, h]

theorem c10_break_iff_witness :
    breakCond 100 = true ∧ breakCond 101 = false :=
  ⟨(c10_break_iff.1 100).mpr rfl, c10_break_iff.2 101 (by decide)⟩

end RLSnakes
